import Mathlib

/-!
Shallow embedding of `core/src/util/input_output.rs` from the
check-if-email-exists repository, together with theorems about the
configuration builder (`CheckEmailInput`), the verdict enum (`Reachable`)
and the custom JSON serialization of `CheckEmailOutput`.

Conventions of the embedding:
* Rust `u16` / `usize` become `Nat` (no claim involves overflow of these
  fields; they are only stored and read back).
* Rust `Result<T, E>` becomes the two-constructor inductive `RustResult`.
* Rust `std::time::Duration` is modelled by its whole-second count, the
  only constructor the source uses (`Duration::from_secs`).
* serde serialization is modelled as a function into an explicit `Json`
  value; serde's `skip_serializing_if = "Option::is_none"` becomes the
  conditional omission of the key in the produced object.
* The mutating builder methods `fn set_x(&mut self, v) -> &mut Self`
  become pure functions `CheckEmailInput → _ → CheckEmailInput`.
* The Rust field `syntax` of `CheckEmailOutput` is named `syntax_details`
  here because `syntax` is a reserved word in Lean.
-/

namespace EmailCheck

/-- The JSON value tree produced by serialization. -/
inductive Json where
  | null
  | bool (b : Bool)
  | num (n : Int)
  | str (s : String)
  | arr (elems : List Json)
  | obj (members : List (String × Json))

/-- Serialize an optional string, serde-style: `None` is JSON `null`. -/
def Json.ofOptStr : Option String → Json
  | Option.some s => Json.str s
  | Option.none => Json.null

/-- Serialize an optional boolean, serde-style: `None` is JSON `null`. -/
def Json.ofOptBool : Option Bool → Json
  | Option.some b => Json.bool b
  | Option.none => Json.null

/-- First value bound to key `k` in an association list of JSON members. -/
def lookupMember (k : String) : List (String × Json) → Option Json
  | [] => Option.none
  | (k2, v) :: rest => if k = k2 then Option.some v else lookupMember k rest

/-- The keys of a JSON object, in emission order (`[]` on non-objects). -/
def Json.objKeys : Json → List String
  | Json.obj members => members.map Prod.fst
  | _ => []

/-- Look a key up in a JSON object (`none` on non-objects). -/
def Json.lookupKey : Json → String → Option Json
  | Json.obj members, k => lookupMember k members
  | _, _ => Option.none

/-- Whether a JSON object contains the key `k` at its top level. -/
def Json.hasKey (j : Json) (k : String) : Bool :=
  (j.lookupKey k).isSome

/-- Rust's `Result<T, E>`. -/
inductive RustResult (T E : Type) where
  | Ok (t : T)
  | Err (e : E)
deriving DecidableEq

/-- `std::time::Duration`, reduced to the whole-second count used here. -/
structure Duration where
  secs : Nat
deriving DecidableEq

/-- `Duration::from_secs`. -/
def Duration.from_secs (n : Nat) : Duration := ⟨n⟩

/-- `CheckEmailInputProxy`: SOCKS5 proxy host/port and optional credentials. -/
structure CheckEmailInputProxy where
  host : String
  port : Nat
  username : Option String
  password : Option String
deriving DecidableEq

/-- `#[derive(Default)]` on `CheckEmailInputProxy`: empty host, port 0,
    no credentials. -/
def CheckEmailInputProxy.default : CheckEmailInputProxy :=
  { host := "", port := 0, username := Option.none, password := Option.none }

/-- `SmtpSecurity`: how to apply TLS to an SMTP client connection. -/
inductive SmtpSecurity where
  | None
  | Opportunistic
  | Required
  | Wrapper
deriving DecidableEq

/-- `impl Default for SmtpSecurity`. -/
def SmtpSecurity.default : SmtpSecurity := SmtpSecurity.Opportunistic

/-- `async_smtp::ClientSecurity`, generic over the TLS parameter bundle
    (`ClientTlsParameters` is external to the repository, so it stays an
    abstract type parameter). -/
inductive ClientSecurity (T : Type) where
  | None
  | Opportunistic (tls : T)
  | Required (tls : T)
  | Wrapper (tls : T)
deriving DecidableEq

/-- `SmtpSecurity::to_client_security`. -/
def SmtpSecurity.to_client_security {T : Type} :
    SmtpSecurity → T → ClientSecurity T
  | SmtpSecurity.None, _ => ClientSecurity.None
  | SmtpSecurity.Opportunistic, tls => ClientSecurity.Opportunistic tls
  | SmtpSecurity.Required, tls => ClientSecurity.Required tls
  | SmtpSecurity.Wrapper, tls => ClientSecurity.Wrapper tls

/-- `CheckEmailInput`: the builder for the input of `email_exists`.
    The `hotmail_use_headless` field is behind the optional `headless`
    cargo feature and is omitted, matching the default build. -/
structure CheckEmailInput where
  to_email : String
  from_email : String
  hello_name : String
  proxy : Option CheckEmailInputProxy
  smtp_port : Nat
  smtp_timeout : Option Duration
  yahoo_use_api : Bool
  gmail_use_api : Bool
  microsoft365_use_api : Bool
  check_gravatar : Bool
  haveibeenpwned_api_key : Option String
  retries : Nat
  smtp_security : SmtpSecurity
  skipped_domains : List String
deriving DecidableEq

/-- `impl Default for CheckEmailInput`. -/
def CheckEmailInput.default : CheckEmailInput :=
  { to_email := ""
    from_email := "reacher.email@gmail.com"
    hello_name := "gmail.com"
    proxy := Option.none
    smtp_port := 25
    smtp_security := SmtpSecurity.default
    smtp_timeout := Option.some (Duration.from_secs 12)
    yahoo_use_api := true
    gmail_use_api := false
    microsoft365_use_api := false
    check_gravatar := false
    haveibeenpwned_api_key := Option.none
    retries := 2
    skipped_domains :=
      [".bluewin.ch.", "bluewin-ch.", ".gmx.net.", ".mail.icloud.com.",
        ".web.de.", ".zoho.com."] }

/-- `CheckEmailInput::new`. -/
def CheckEmailInput.new (to_email : String) : CheckEmailInput :=
  { CheckEmailInput.default with to_email := to_email }

/-- `CheckEmailInput::set_from_email`. -/
def CheckEmailInput.set_from_email (self : CheckEmailInput) (email : String) :
    CheckEmailInput :=
  { self with from_email := email }

/-- `CheckEmailInput::set_hello_name`. -/
def CheckEmailInput.set_hello_name (self : CheckEmailInput) (name : String) :
    CheckEmailInput :=
  { self with hello_name := name }

/-- `CheckEmailInput::set_proxy`. -/
def CheckEmailInput.set_proxy (self : CheckEmailInput)
    (proxy : CheckEmailInputProxy) : CheckEmailInput :=
  { self with proxy := Option.some proxy }

/-- `CheckEmailInput::set_retries`. -/
def CheckEmailInput.set_retries (self : CheckEmailInput) (retries : Nat) :
    CheckEmailInput :=
  { self with retries := retries }

/-- `CheckEmailInput::set_smtp_port`. -/
def CheckEmailInput.set_smtp_port (self : CheckEmailInput) (port : Nat) :
    CheckEmailInput :=
  { self with smtp_port := port }

/-- `CheckEmailInput::set_smtp_security`. -/
def CheckEmailInput.set_smtp_security (self : CheckEmailInput)
    (smtp_security : SmtpSecurity) : CheckEmailInput :=
  { self with smtp_security := smtp_security }

/-- `CheckEmailInput::set_smtp_timeout`. -/
def CheckEmailInput.set_smtp_timeout (self : CheckEmailInput)
    (duration : Option Duration) : CheckEmailInput :=
  { self with smtp_timeout := duration }

/-- `CheckEmailInput::set_yahoo_use_api`. -/
def CheckEmailInput.set_yahoo_use_api (self : CheckEmailInput)
    (use_api : Bool) : CheckEmailInput :=
  { self with yahoo_use_api := use_api }

/-- `CheckEmailInput::set_gmail_use_api`. -/
def CheckEmailInput.set_gmail_use_api (self : CheckEmailInput)
    (use_api : Bool) : CheckEmailInput :=
  { self with gmail_use_api := use_api }

/-- `CheckEmailInput::set_microsoft365_use_api`. -/
def CheckEmailInput.set_microsoft365_use_api (self : CheckEmailInput)
    (use_api : Bool) : CheckEmailInput :=
  { self with microsoft365_use_api := use_api }

/-- `CheckEmailInput::set_check_gravatar`. -/
def CheckEmailInput.set_check_gravatar (self : CheckEmailInput)
    (check_gravatar : Bool) : CheckEmailInput :=
  { self with check_gravatar := check_gravatar }

/-- `CheckEmailInput::set_haveibeenpwned_api_key`. -/
def CheckEmailInput.set_haveibeenpwned_api_key (self : CheckEmailInput)
    (api_key : Option String) : CheckEmailInput :=
  { self with haveibeenpwned_api_key := api_key }

/-- `CheckEmailInput::set_skipped_domains`. -/
def CheckEmailInput.set_skipped_domains (self : CheckEmailInput)
    (domains : List String) : CheckEmailInput :=
  { self with skipped_domains := domains }

/-- Deprecated `CheckEmailInput::from_email` (named with a `deprecated_`
    marker because the plain name is taken by the field projection). -/
def CheckEmailInput.deprecated_from_email (self : CheckEmailInput)
    (email : String) : CheckEmailInput :=
  { self with from_email := email }

/-- Deprecated `CheckEmailInput::hello_name`. -/
def CheckEmailInput.deprecated_hello_name (self : CheckEmailInput)
    (name : String) : CheckEmailInput :=
  { self with hello_name := name }

/-- Deprecated `CheckEmailInput::proxy`: builds the proxy value from host
    and port, with the remaining fields from `CheckEmailInputProxy`'s
    `Default` (`..Default::default()` in the source). -/
def CheckEmailInput.deprecated_proxy (self : CheckEmailInput)
    (proxy_host : String) (proxy_port : Nat) : CheckEmailInput :=
  { self with
      proxy := Option.some
        { CheckEmailInputProxy.default with host := proxy_host, port := proxy_port } }

/-- Deprecated `CheckEmailInput::smtp_timeout`: wraps its argument in `Some`. -/
def CheckEmailInput.deprecated_smtp_timeout (self : CheckEmailInput)
    (duration : Duration) : CheckEmailInput :=
  { self with smtp_timeout := Option.some duration }

/-- Deprecated `CheckEmailInput::yahoo_use_api`. -/
def CheckEmailInput.deprecated_yahoo_use_api (self : CheckEmailInput)
    (use_api : Bool) : CheckEmailInput :=
  { self with yahoo_use_api := use_api }

/-- `Reachable`: confidence that the recipient address is real. -/
inductive Reachable where
  | Safe
  | Risky
  | Invalid
  | Unknown
deriving DecidableEq

/-- serde serialization of `Reachable` under
    `#[serde(rename_all = "lowercase")]`. -/
def Reachable.serialize : Reachable → Json
  | Reachable.Safe => Json.str "safe"
  | Reachable.Risky => Json.str "risky"
  | Reachable.Invalid => Json.str "invalid"
  | Reachable.Unknown => Json.str "unknown"

/-- Whether the character list `pat` is a prefix of `l` (helper for the
    substring scan of the spec-modelled response classifier). -/
def charsPrefix : List Char → List Char → Bool
  | [], _ => true
  | _ :: _, [] => false
  | a :: as, b :: bs => a == b && charsPrefix as bs

/-- Whether the character list `pat` occurs contiguously inside `l`. -/
def charsInfix (pat : List Char) : List Char → Bool
  | [] => pat.isEmpty
  | c :: cs => charsPrefix pat (c :: cs) || charsInfix pat cs

/-- Whether the string `pat` occurs as a substring of `hay`. -/
def containsSubstring (hay pat : String) : Bool :=
  charsInfix pat.data hay.data

/-- ASCII lower-casing of one character (the case-insensitivity of the
    classifier's patterns, which are all ASCII). -/
def lowerAscii (c : Char) : Char :=
  if 65 ≤ c.toNat && c.toNat ≤ 90 then Char.ofNat (c.toNat + 32) else c

/-- Modelled from the spec: the `MiscDetails` success payload of the
    miscellaneous collaborator, `{is_disposable, is_role_account,
    gravatar_url, haveibeenpwned}` (§6); the type lives in
    `core/src/misc`, outside the provided sources. -/
structure MiscDetails where
  is_disposable : Bool
  is_role_account : Bool
  gravatar_url : Option String
  haveibeenpwned : Option Bool
deriving DecidableEq

/-- Modelled from the spec: default `MiscDetails` (all-false / absent),
    matching the serialized shape shown in the source's unit test. -/
def MiscDetails.default : MiscDetails :=
  { is_disposable := false, is_role_account := false,
    gravatar_url := Option.none, haveibeenpwned := Option.none }

/-- Modelled from the spec: derived serde serialization of `MiscDetails`. -/
def MiscDetails.serialize (d : MiscDetails) : Json :=
  Json.obj
    [("is_disposable", Json.bool d.is_disposable),
      ("is_role_account", Json.bool d.is_role_account),
      ("gravatar_url", Json.ofOptStr d.gravatar_url),
      ("haveibeenpwned", Json.ofOptBool d.haveibeenpwned)]

/-- Modelled from the spec: the `MxDetails` success payload of the
    mail-exchanger collaborator — whether the domain accepts mail and the
    resolved host records (§6); the type lives in `core/src/mx`, outside
    the provided sources. -/
structure MxDetails where
  accepts_mail : Bool
  records : List String
deriving DecidableEq

/-- Modelled from the spec: default `MxDetails` (no mail, no records),
    matching the serialized shape shown in the source's unit test. -/
def MxDetails.default : MxDetails :=
  { accepts_mail := false, records := [] }

/-- Modelled from the spec: derived serde serialization of `MxDetails`. -/
def MxDetails.serialize (d : MxDetails) : Json :=
  Json.obj
    [("accepts_mail", Json.bool d.accepts_mail),
      ("records", Json.arr (d.records.map Json.str))]

/-- Modelled from the spec: the `SmtpDetails` success payload of the
    protocol dialogue — deliverability, catch-all behaviour, full inbox,
    disabled mailbox (§4.3); the type lives in `core/src/smtp`, outside
    the provided sources. -/
structure SmtpDetails where
  can_connect_smtp : Bool
  has_full_inbox : Bool
  is_catch_all : Bool
  is_deliverable : Bool
  is_disabled : Bool
deriving DecidableEq

/-- Modelled from the spec: default `SmtpDetails` (all-false). -/
def SmtpDetails.default : SmtpDetails :=
  { can_connect_smtp := false, has_full_inbox := false, is_catch_all := false,
    is_deliverable := false, is_disabled := false }

/-- Modelled from the spec: derived serde serialization of `SmtpDetails`. -/
def SmtpDetails.serialize (d : SmtpDetails) : Json :=
  Json.obj
    [("can_connect_smtp", Json.bool d.can_connect_smtp),
      ("has_full_inbox", Json.bool d.has_full_inbox),
      ("is_catch_all", Json.bool d.is_catch_all),
      ("is_deliverable", Json.bool d.is_deliverable),
      ("is_disabled", Json.bool d.is_disabled)]

/-- Modelled from the spec: the `SyntaxDetails` payload of the syntax
    collaborator, `{domain, username, normalized_form, suggestion,
    is_valid}` plus the parsed address (§6); the type lives in
    `core/src/syntax`, outside the provided sources. -/
structure SyntaxDetails where
  address : Option String
  domain : String
  is_valid_syntax : Bool
  username : String
  normalized_email : Option String
  suggestion : Option String
deriving DecidableEq

/-- Modelled from the spec: default `SyntaxDetails` (nothing parsed),
    matching the serialized shape shown in the source's unit test. -/
def SyntaxDetails.default : SyntaxDetails :=
  { address := Option.none, domain := "", is_valid_syntax := false,
    username := "", normalized_email := Option.none, suggestion := Option.none }

/-- Modelled from the spec: derived serde serialization of
    `SyntaxDetails`, with the field order of the source's unit test. -/
def SyntaxDetails.serialize (d : SyntaxDetails) : Json :=
  Json.obj
    [("address", Json.ofOptStr d.address),
      ("domain", Json.str d.domain),
      ("is_valid_syntax", Json.bool d.is_valid_syntax),
      ("username", Json.str d.username),
      ("normalized_email", Json.ofOptStr d.normalized_email),
      ("suggestion", Json.ofOptStr d.suggestion)]

/-- Modelled from the spec: the typed failure of the miscellaneous
    sub-check, carrying an error-kind and message (§4.4); the type lives
    in `core/src/misc`, outside the provided sources. -/
structure MiscError where
  kind : String
  message : String
deriving DecidableEq

/-- Modelled from the spec: serde serialization of `MiscError`
    (`{"type": ..., "message": ...}`, the error-object shape of the
    source's unit test). -/
def MiscError.serialize (e : MiscError) : Json :=
  Json.obj [("type", Json.str e.kind), ("message", Json.str e.message)]

/-- Modelled from the spec: the typed failure of the mail-exchanger
    sub-check, carrying an error-kind and message (§4.4); the type lives
    in `core/src/mx`, outside the provided sources. -/
structure MxError where
  kind : String
  message : String
deriving DecidableEq

/-- Modelled from the spec: serde serialization of `MxError`. -/
def MxError.serialize (e : MxError) : Json :=
  Json.obj [("type", Json.str e.kind), ("message", Json.str e.message)]

/-- Modelled from the spec: the typed failure of the protocol dialogue,
    carrying an error-kind and the (reply) message text scanned by the
    response classifier (§4.3, §4.4); the type lives in `core/src/smtp`,
    outside the provided sources. -/
structure SmtpError where
  kind : String
  message : String
deriving DecidableEq

/-- Modelled from the spec: serde serialization of `SmtpError`. -/
def SmtpError.serialize (e : SmtpError) : Json :=
  Json.obj [("type", Json.str e.kind), ("message", Json.str e.message)]

/-- Modelled from the spec: `SmtpErrorDesc`, the closed taxonomy of
    diagnostic causes of a dialogue failure — sender IP on a blocklist or
    the server demanding reverse-DNS resolution (§3, §4.2); the type
    lives in `core/src/smtp`, outside the provided sources. -/
inductive SmtpErrorDesc where
  | IpBlacklisted
  | NeedsRDNS
deriving DecidableEq

/-- Modelled from the spec: serde serialization of `SmtpErrorDesc`
    (variant-name strings, as in the source's unit test). -/
def SmtpErrorDesc.serialize : SmtpErrorDesc → Json
  | SmtpErrorDesc.IpBlacklisted => Json.str "IpBlacklisted"
  | SmtpErrorDesc.NeedsRDNS => Json.str "NeedsRDNS"

/-- Modelled from the spec: `SmtpError::get_description`, the response
    classifier of §4.2 — an ordered, first-match-wins, case-insensitive
    substring scan of the reply text, yielding `none` when no pattern
    matches; the function lives in `core/src/smtp`, outside the provided
    sources. The two patterns are those exercised by the source's unit
    test ("blacklist" and the reverse-hostname complaint). -/
def SmtpError.get_description (e : SmtpError) : Option SmtpErrorDesc :=
  let lower := e.message.data.map lowerAscii
  if charsInfix "blacklist".data lower then
    Option.some SmtpErrorDesc.IpBlacklisted
  else if charsInfix "cannot find your reverse hostname".data lower then
    Option.some SmtpErrorDesc.NeedsRDNS
  else
    Option.none

/-- `CheckEmailOutput`: the result of `check_email`. The Rust field
    `syntax` is named `syntax_details` (reserved word); note it is a bare
    `SyntaxDetails`, not a `Result`. -/
structure CheckEmailOutput where
  input : String
  is_reachable : Reachable
  misc : RustResult MiscDetails MiscError
  mx : RustResult MxDetails MxError
  smtp : RustResult SmtpDetails SmtpError
  syntax_details : SyntaxDetails
deriving DecidableEq

/-- `impl Default for CheckEmailOutput`. -/
def CheckEmailOutput.default : CheckEmailOutput :=
  { input := ""
    is_reachable := Reachable.Unknown
    misc := RustResult.Ok MiscDetails.default
    mx := RustResult.Ok MxDetails.default
    smtp := RustResult.Ok SmtpDetails.default
    syntax_details := SyntaxDetails.default }

/-- The internal `MyError<E>` wrapper of the custom `Serialize` impl: an
    `error` member plus a `description` member that serde skips entirely
    when the option is `None` (`skip_serializing_if = "Option::is_none"`). -/
def serializeMyError {E : Type} (ser : E → Json) (error : E)
    (desc : Option SmtpErrorDesc) : Json :=
  Json.obj
    (("error", ser error) ::
      (match desc with
        | Option.some d => [("description", d.serialize)]
        | Option.none => []))

/-- The custom `impl Serialize for CheckEmailOutput`: entries emitted in
    source order; `misc` and `mx` failures are wrapped with
    `description: None`, the `smtp` failure with
    `description: error.get_description()`, and `syntax` is emitted
    directly (it has no failure side). -/
def CheckEmailOutput.serialize (self : CheckEmailOutput) : Json :=
  Json.obj
    [("input", Json.str self.input),
      ("is_reachable", self.is_reachable.serialize),
      ("misc",
        (match self.misc with
          | RustResult.Ok t => t.serialize
          | RustResult.Err error =>
            serializeMyError MiscError.serialize error Option.none)),
      ("mx",
        (match self.mx with
          | RustResult.Ok t => t.serialize
          | RustResult.Err error =>
            serializeMyError MxError.serialize error Option.none)),
      ("smtp",
        (match self.smtp with
          | RustResult.Ok t => t.serialize
          | RustResult.Err error =>
            serializeMyError SmtpError.serialize error error.get_description)),
      ("syntax", self.syntax_details.serialize)]

/-- A sample miscellaneous failure, for concrete instantiations. -/
def sampleMiscError : MiscError := { kind := "MiscError", message := "misc failed" }

/-- A sample mail-exchanger failure, for concrete instantiations. -/
def sampleMxError : MxError := { kind := "MxError", message := "mx failed" }

/-- A sample dialogue failure whose reply text the classifier recognises
    (the "blacklist" message of the source's unit test). -/
def sampleSmtpError : SmtpError :=
  { kind := "SmtpError", message := "transient: blacklist" }

/-- A sample output in which all three fallible sub-checks failed. -/
def sampleOutputAllErr : CheckEmailOutput :=
  { input := "foo"
    is_reachable := Reachable.Unknown
    misc := RustResult.Err sampleMiscError
    mx := RustResult.Err sampleMxError
    smtp := RustResult.Err sampleSmtpError
    syntax_details := SyntaxDetails.default }

/-! ## Theorems -/

/-- C1: serialization renders a failed sub-check as an error object; the
    `misc` and `mx` error objects never contain a `description` member,
    while the `smtp` error object contains `description` exactly when
    `get_description` finds a diagnostic cause for the SMTP error, the
    member being entirely absent otherwise. -/
theorem smtp_description_asymmetry (o : CheckEmailOutput) :
    (∀ e : MiscError, o.misc = RustResult.Err e →
      o.serialize.lookupKey "misc"
          = Option.some (serializeMyError MiscError.serialize e Option.none) ∧
        (serializeMyError MiscError.serialize e Option.none).hasKey "error" = true ∧
        (serializeMyError MiscError.serialize e Option.none).hasKey "description" = false) ∧
    (∀ e : MxError, o.mx = RustResult.Err e →
      o.serialize.lookupKey "mx"
          = Option.some (serializeMyError MxError.serialize e Option.none) ∧
        (serializeMyError MxError.serialize e Option.none).hasKey "error" = true ∧
        (serializeMyError MxError.serialize e Option.none).hasKey "description" = false) ∧
    (∀ e : SmtpError, o.smtp = RustResult.Err e →
      o.serialize.lookupKey "smtp"
          = Option.some (serializeMyError SmtpError.serialize e e.get_description) ∧
        (serializeMyError SmtpError.serialize e e.get_description).hasKey "error" = true ∧
        (serializeMyError SmtpError.serialize e e.get_description).hasKey "description"
          = e.get_description.isSome) := by
  obtain ⟨inp, reach, misc, mx, smtp, syn⟩ := o
  refine ⟨?_, ?_, ?_⟩ <;> intro e he <;> simp only at he <;> subst he
  · exact ⟨rfl, rfl, rfl⟩
  · exact ⟨rfl, rfl, rfl⟩
  · refine ⟨rfl, ?_, ?_⟩ <;>
      cases hd : e.get_description <;>
        simp [serializeMyError, Json.hasKey, Json.lookupKey, lookupMember, hd]

/-- Witness for C1 at a concrete output in which all three fallible
    sub-checks failed, the dialogue failure carrying classifiable text. -/
theorem smtp_description_asymmetry_witness :
    sampleOutputAllErr.serialize.lookupKey "misc"
        = Option.some (serializeMyError MiscError.serialize sampleMiscError Option.none) ∧
      (serializeMyError MiscError.serialize sampleMiscError Option.none).hasKey
        "description" = false ∧
      (serializeMyError MxError.serialize sampleMxError Option.none).hasKey
        "description" = false ∧
      (serializeMyError SmtpError.serialize sampleSmtpError
          sampleSmtpError.get_description).hasKey "description"
        = sampleSmtpError.get_description.isSome :=
  ⟨((smtp_description_asymmetry sampleOutputAllErr).1 sampleMiscError rfl).1,
    ((smtp_description_asymmetry sampleOutputAllErr).1 sampleMiscError rfl).2.2,
    ((smtp_description_asymmetry sampleOutputAllErr).2.1 sampleMxError rfl).2.2,
    ((smtp_description_asymmetry sampleOutputAllErr).2.2 sampleSmtpError rfl).2.2⟩

/-- C2: `CheckEmailInput::default()` has the placeholder reacher-owned
    `from_email`, `hello_name` "gmail.com", port 25, a 12-second timeout,
    2 retries, opportunistic TLS, the Yahoo-API bypass on, the other
    provider bypasses off, and the curated non-empty skip-list. -/
theorem default_input_values :
    CheckEmailInput.default.from_email = "reacher.email@gmail.com" ∧
    CheckEmailInput.default.hello_name = "gmail.com" ∧
    CheckEmailInput.default.smtp_port = 25 ∧
    CheckEmailInput.default.smtp_timeout = Option.some (Duration.from_secs 12) ∧
    CheckEmailInput.default.retries = 2 ∧
    CheckEmailInput.default.smtp_security = SmtpSecurity.Opportunistic ∧
    CheckEmailInput.default.yahoo_use_api = true ∧
    CheckEmailInput.default.gmail_use_api = false ∧
    CheckEmailInput.default.microsoft365_use_api = false ∧
    CheckEmailInput.default.skipped_domains =
      [".bluewin.ch.", "bluewin-ch.", ".gmx.net.", ".mail.icloud.com.",
        ".web.de.", ".zoho.com."] ∧
    CheckEmailInput.default.skipped_domains ≠ [] := by
  refine ⟨rfl, rfl, rfl, rfl, rfl, rfl, rfl, rfl, rfl, rfl, ?_⟩
  decide

/-- C3: the serialized record emits its entries in exactly the order
    input, is_reachable, misc, mx, smtp, syntax. -/
theorem serialize_entry_order (o : CheckEmailOutput) :
    o.serialize.objKeys = ["input", "is_reachable", "misc", "mx", "smtp", "syntax"] :=
  rfl

/-- C4: every `Reachable` verdict serializes to the corresponding
    lowercase taxonomy name. -/
theorem reachable_serialize_lowercase :
    Reachable.serialize Reachable.Safe = Json.str "safe" ∧
    Reachable.serialize Reachable.Risky = Json.str "risky" ∧
    Reachable.serialize Reachable.Invalid = Json.str "invalid" ∧
    Reachable.serialize Reachable.Unknown = Json.str "unknown" :=
  ⟨rfl, rfl, rfl, rfl⟩

/-- C5: `to_client_security` maps `None` to `ClientSecurity::None`,
    discarding the TLS parameters, and each other mode to the
    `ClientSecurity` variant of the same name carrying them. -/
theorem to_client_security_spec {T : Type} (tls : T) :
    SmtpSecurity.to_client_security SmtpSecurity.None tls = ClientSecurity.None ∧
    SmtpSecurity.to_client_security SmtpSecurity.Opportunistic tls
      = ClientSecurity.Opportunistic tls ∧
    SmtpSecurity.to_client_security SmtpSecurity.Required tls
      = ClientSecurity.Required tls ∧
    SmtpSecurity.to_client_security SmtpSecurity.Wrapper tls
      = ClientSecurity.Wrapper tls :=
  ⟨rfl, rfl, rfl, rfl⟩

/-- C6: each setter replaces exactly its own field with the given value
    and leaves every other field unchanged (stated as equality with the
    one-field record update); as total functions into `CheckEmailInput`
    the setters accept every argument of the right type, with no
    validation or error path. -/
theorem setters_frame (self : CheckEmailInput) (email hname : String)
    (p : CheckEmailInputProxy) (retries port : Nat) (sec : SmtpSecurity)
    (t : Option Duration) (b1 b2 b3 b4 : Bool) (key : Option String)
    (domains : List String) :
    self.set_from_email email = { self with from_email := email } ∧
    self.set_hello_name hname = { self with hello_name := hname } ∧
    self.set_proxy p = { self with proxy := Option.some p } ∧
    self.set_retries retries = { self with retries := retries } ∧
    self.set_smtp_port port = { self with smtp_port := port } ∧
    self.set_smtp_security sec = { self with smtp_security := sec } ∧
    self.set_smtp_timeout t = { self with smtp_timeout := t } ∧
    self.set_yahoo_use_api b1 = { self with yahoo_use_api := b1 } ∧
    self.set_gmail_use_api b2 = { self with gmail_use_api := b2 } ∧
    self.set_microsoft365_use_api b3 = { self with microsoft365_use_api := b3 } ∧
    self.set_check_gravatar b4 = { self with check_gravatar := b4 } ∧
    self.set_haveibeenpwned_api_key key
      = { self with haveibeenpwned_api_key := key } ∧
    self.set_skipped_domains domains = { self with skipped_domains := domains } :=
  ⟨rfl, rfl, rfl, rfl, rfl, rfl, rfl, rfl, rfl, rfl, rfl, rfl, rfl⟩

/-- C7: each deprecated mutator is observationally equal to its renamed
    replacement; the deprecated timeout wraps its argument in `Some`, and
    the deprecated proxy mutator equals `set_proxy` with a proxy of that
    host and port and no credentials. -/
theorem deprecated_aliases_equiv (self : CheckEmailInput) (email hname : String)
    (d : Duration) (b : Bool) (host : String) (port : Nat) :
    self.deprecated_from_email email = self.set_from_email email ∧
    self.deprecated_hello_name hname = self.set_hello_name hname ∧
    self.deprecated_smtp_timeout d = self.set_smtp_timeout (Option.some d) ∧
    self.deprecated_yahoo_use_api b = self.set_yahoo_use_api b ∧
    self.deprecated_proxy host port
      = self.set_proxy
          { host := host, port := port,
            username := Option.none, password := Option.none } :=
  ⟨rfl, rfl, rfl, rfl, rfl⟩

/-- C8: `CheckEmailInput::new` sets `to_email` and takes every other
    field from `CheckEmailInput::default()`, so no field is unset. -/
theorem new_is_default_with_to_email (s : String) :
    (CheckEmailInput.new s).to_email = s ∧
    (CheckEmailInput.new s).from_email = CheckEmailInput.default.from_email ∧
    (CheckEmailInput.new s).hello_name = CheckEmailInput.default.hello_name ∧
    (CheckEmailInput.new s).proxy = CheckEmailInput.default.proxy ∧
    (CheckEmailInput.new s).smtp_port = CheckEmailInput.default.smtp_port ∧
    (CheckEmailInput.new s).smtp_timeout = CheckEmailInput.default.smtp_timeout ∧
    (CheckEmailInput.new s).yahoo_use_api = CheckEmailInput.default.yahoo_use_api ∧
    (CheckEmailInput.new s).gmail_use_api = CheckEmailInput.default.gmail_use_api ∧
    (CheckEmailInput.new s).microsoft365_use_api
      = CheckEmailInput.default.microsoft365_use_api ∧
    (CheckEmailInput.new s).check_gravatar = CheckEmailInput.default.check_gravatar ∧
    (CheckEmailInput.new s).haveibeenpwned_api_key
      = CheckEmailInput.default.haveibeenpwned_api_key ∧
    (CheckEmailInput.new s).retries = CheckEmailInput.default.retries ∧
    (CheckEmailInput.new s).smtp_security = CheckEmailInput.default.smtp_security ∧
    (CheckEmailInput.new s).skipped_domains = CheckEmailInput.default.skipped_domains ∧
    CheckEmailInput.new s = { CheckEmailInput.default with to_email := s } :=
  ⟨rfl, rfl, rfl, rfl, rfl, rfl, rfl, rfl, rfl, rfl, rfl, rfl, rfl, rfl, rfl⟩

/-- C9 (counterexample): no `CheckEmailOutput` ever serializes its
    `syntax` entry as an error object — the syntax sub-check, unlike the
    other three, cannot be rendered as a typed failure, since the field
    is a bare `SyntaxDetails` with no failure side. -/
theorem syntax_subcheck_never_error_object :
    ¬ ∃ o : CheckEmailOutput,
      ((o.serialize.lookupKey "syntax").getD Json.null).hasKey "error" = true := by
  rintro ⟨o, h⟩
  exact Bool.noConfusion h

/-- C9 (amended): the misc, mx and smtp sub-check results are each either
    a success payload or a typed failure, while the syntax sub-check is
    always rendered directly as its success payload, never as an error
    object. -/
theorem subcheck_result_shapes (o : CheckEmailOutput) :
    ((∃ t, o.misc = RustResult.Ok t) ∨ (∃ e, o.misc = RustResult.Err e)) ∧
    ((∃ t, o.mx = RustResult.Ok t) ∨ (∃ e, o.mx = RustResult.Err e)) ∧
    ((∃ t, o.smtp = RustResult.Ok t) ∨ (∃ e, o.smtp = RustResult.Err e)) ∧
    o.serialize.lookupKey "syntax" = Option.some o.syntax_details.serialize ∧
    (o.syntax_details.serialize).hasKey "error" = false := by
  refine ⟨?_, ?_, ?_, rfl, rfl⟩
  · cases o.misc with
    | Ok t => exact Or.inl ⟨t, rfl⟩
    | Err e => exact Or.inr ⟨e, rfl⟩
  · cases o.mx with
    | Ok t => exact Or.inl ⟨t, rfl⟩
    | Err e => exact Or.inr ⟨e, rfl⟩
  · cases o.smtp with
    | Ok t => exact Or.inl ⟨t, rfl⟩
    | Err e => exact Or.inr ⟨e, rfl⟩

/-- C10: the default `CheckEmailOutput` has verdict `Unknown` (none of
    the other three), an empty input string, all three fallible
    sub-checks set to the success payload of their default details, and
    hence no error object anywhere in its serialization. -/
theorem default_output_values :
    CheckEmailOutput.default.input = "" ∧
    CheckEmailOutput.default.is_reachable = Reachable.Unknown ∧
    CheckEmailOutput.default.is_reachable ≠ Reachable.Safe ∧
    CheckEmailOutput.default.is_reachable ≠ Reachable.Risky ∧
    CheckEmailOutput.default.is_reachable ≠ Reachable.Invalid ∧
    CheckEmailOutput.default.misc = RustResult.Ok MiscDetails.default ∧
    CheckEmailOutput.default.mx = RustResult.Ok MxDetails.default ∧
    CheckEmailOutput.default.smtp = RustResult.Ok SmtpDetails.default ∧
    CheckEmailOutput.default.syntax_details = SyntaxDetails.default ∧
    ((CheckEmailOutput.default.serialize.lookupKey "misc").getD Json.null).hasKey
      "error" = false ∧
    ((CheckEmailOutput.default.serialize.lookupKey "mx").getD Json.null).hasKey
      "error" = false ∧
    ((CheckEmailOutput.default.serialize.lookupKey "smtp").getD Json.null).hasKey
      "error" = false := by
  refine ⟨rfl, rfl, ?_, ?_, ?_, rfl, rfl, rfl, rfl, rfl, rfl, rfl⟩ <;> decide

end EmailCheck
